import Mathlib

/-!
Verification of the authentication / registration-key / tenant-isolation core
of a multi-tenant legal-practice SaaS (Express + Prisma backend).

The development shallow-embeds the three source modules:
  * RBAC middleware (`requireAccountTypes`, `forbidAccountTypes`,
    `requireCashFlowAccess`, `requireSettingsAccess`, `getDashboardPermissions`,
    `validateTenantAccess`);
  * `RegistrationKeyService` (`generateKey`, `validateAndConsumeKey`, ...);
  * `AuthService` (`generateTokens`, `verifyRefreshToken`, `refreshTokens`,
    `revokeAllTokens`, `loginUser`, ...).

Modelling conventions:
  * bcrypt is modelled functionally: a hash is an opaque wrapper of the
    hashed plaintext, and `bcrypt.compare` is equality with the wrapped
    plaintext (collisions ignored, salt irrelevant to compare semantics).
  * JS `Date` values are `Nat` timestamps; `new Date() > new Date(e)` is `e < now`.
  * JS string truthiness (`!s`, `s &&`) is `s ≠ ""`; optional request fields
    are `Option`, with `none` playing `undefined`.
  * Thrown `Error(msg)` is `Except.error msg`; a `try/catch` that logs and
    swallows is a `match` discarding the error.
  * The opaque database collaborator (`../config/database`, not part of the
    sources) is modelled from the spec as a list store.
-/

/-- Account tiers of the multi-tenant system (`AccountType` Prisma enum). -/
inductive AccountType
  | SIMPLES
  | COMPOSTA
  | GERENCIAL
deriving DecidableEq, Repr

/-- The identity middleware reads from `req.user`.  `accountType` and
`tenantId` may be absent/falsy on the request object, hence `Option`. -/
structure ReqUser where
  accountType : Option AccountType
  tenantId : Option String
deriving DecidableEq, Repr

/-- An `AuthenticatedRequest`: an optional attached identity plus the
route parameters the tenant middleware consults (`req.params.tenantId`). -/
structure AuthRequest where
  user : Option ReqUser
  paramsTenantId : Option String
deriving DecidableEq, Repr

/-- JS truthiness of an optional string: `undefined` and `""` are falsy. -/
def jsTruthyOptStr : Option String → Bool
  | none => false
  | some s => s ≠ ""

/-- Outcome of a middleware: call `next()`, or answer with a status and a
JSON body.  The 403 bodies of the two middlewares carry different fields. -/
inductive MwOutcome
  | next
  | status401 (error : String)
  | status403Types (error : String) (required : List AccountType) (current : AccountType)
  | status403Tenant (error : String) (userTenant requestedTenant : String)
deriving DecidableEq, Repr

/-- Middleware `requireAccountTypes(allowedTypes)`: 401 when no identity or no account
type is attached, 403 (with `required` and `current`) when the caller's tier
is not in `allowedTypes`, otherwise `next()`. -/
def requireAccountTypes (allowedTypes : List AccountType) (req : AuthRequest) : MwOutcome :=
  match req.user with
  | none => .status401 "Usuário não autenticado ou tipo de conta não identificado"
  | some u =>
    match u.accountType with
    | none => .status401 "Usuário não autenticado ou tipo de conta não identificado"
    | some acct =>
      if acct ∈ allowedTypes then .next
      else .status403Types "Acesso negado para este tipo de conta" allowedTypes acct

/-- Middleware `requireCashFlowAccess`: Cash-Flow module guard, blocks SIMPLES. -/
def requireCashFlowAccess : AuthRequest → MwOutcome :=
  requireAccountTypes [AccountType.COMPOSTA, AccountType.GERENCIAL]

/-- Middleware `requireSettingsAccess`: Settings module guard, blocks SIMPLES and COMPOSTA. -/
def requireSettingsAccess : AuthRequest → MwOutcome :=
  requireAccountTypes [AccountType.GERENCIAL]

/-- The four capability flags returned by `getDashboardPermissions`. -/
structure DashboardPermissions where
  canViewFinancialCharts : Bool
  canViewCashFlow : Bool
  canViewSettings : Bool
  canViewAllModules : Bool
deriving DecidableEq, Repr

/-- Helper `getDashboardPermissions(accountType)`: pure capability derivation. -/
def getDashboardPermissions (accountType : AccountType) : DashboardPermissions :=
  { canViewFinancialCharts := accountType ≠ AccountType.SIMPLES
    canViewCashFlow := [AccountType.COMPOSTA, AccountType.GERENCIAL].contains accountType
    canViewSettings := accountType = AccountType.GERENCIAL
    canViewAllModules := accountType = AccountType.GERENCIAL }

/-- Middleware `validateTenantAccess`: 401 when no identity or no tenant is attached;
when the path carries a (truthy) `tenantId` differing from the caller's,
403 with both tenants; otherwise `next()`. -/
def validateTenantAccess (req : AuthRequest) : MwOutcome :=
  match req.user with
  | none => .status401 "Usuário não autenticado ou tenant não identificado"
  | some u =>
    if ¬ jsTruthyOptStr u.tenantId then
      .status401 "Usuário não autenticado ou tenant não identificado"
    else
      match req.paramsTenantId with
      | none => .next
      | some pathTenantId =>
        if pathTenantId ≠ "" ∧ some pathTenantId ≠ u.tenantId then
          .status403Tenant "Acesso negado: tenant não autorizado"
            (u.tenantId.getD "") pathTenantId
        else .next

/-- Convenience: a request whose caller has the given tier (tenant irrelevant
to the tier middlewares). -/
def reqWithTier (t : AccountType) : AuthRequest :=
  { user := some { accountType := some t, tenantId := some "t1" }, paramsTenantId := none }

/-- C7: `requireAccountTypes(allowed)` calls `next` iff an identity with a
tier in `allowed` is attached; a tier outside `allowed` yields the 403
outcome carrying `required = allowed` and the caller's tier; a missing
identity (or missing tier) yields the 401 outcome. -/
theorem requireAccountTypes_characterisation (allowed : List AccountType) (req : AuthRequest) :
    (requireAccountTypes allowed req = .next ↔
      ∃ u a, req.user = some u ∧ u.accountType = some a ∧ a ∈ allowed)
    ∧ (∀ u a, req.user = some u → u.accountType = some a → a ∉ allowed →
        requireAccountTypes allowed req =
          .status403Types "Acesso negado para este tipo de conta" allowed a)
    ∧ ((req.user = none ∨ ∃ u, req.user = some u ∧ u.accountType = none) →
        requireAccountTypes allowed req =
          .status401 "Usuário não autenticado ou tipo de conta não identificado") := by
  refine ⟨?_, ?_, ?_⟩
  · constructor
    · intro h
      cases hu : req.user with
      | none => simp [requireAccountTypes, hu] at h
      | some u =>
        cases ha : u.accountType with
        | none => simp [requireAccountTypes, hu, ha] at h
        | some a =>
          by_cases hmem : a ∈ allowed
          · exact ⟨u, a, rfl, ha, hmem⟩
          · simp [requireAccountTypes, hu, ha, hmem] at h
    · rintro ⟨u, a, hu, ha, hmem⟩
      simp [requireAccountTypes, hu, ha, hmem]
  · intro u a hu ha hmem
    simp [requireAccountTypes, hu, ha, hmem]
  · rintro (h | ⟨u, hu, ha⟩)
    · simp [requireAccountTypes, h]
    · simp [requireAccountTypes, hu, ha]

/-- Witness for C7, instantiating the spec's example: tier COMPOSTA against
`requireAccountTypes([GERENCIAL])` is denied with `required = [GERENCIAL]`,
`current = COMPOSTA`. -/
theorem requireAccountTypes_characterisation_witness :
    requireAccountTypes [AccountType.GERENCIAL] (reqWithTier AccountType.COMPOSTA) =
      .status403Types "Acesso negado para este tipo de conta"
        [AccountType.GERENCIAL] AccountType.COMPOSTA :=
  (requireAccountTypes_characterisation [AccountType.GERENCIAL]
      (reqWithTier AccountType.COMPOSTA)).2.1
    { accountType := some AccountType.COMPOSTA, tenantId := some "t1" }
    AccountType.COMPOSTA rfl rfl (by decide)

/-- C8: the pure dashboard capability flags agree with the middleware tier
guards: `canViewCashFlow` is true exactly when `requireCashFlowAccess`
passes a caller of that tier, and `canViewSettings` exactly when
`requireSettingsAccess` passes. -/
theorem getDashboardPermissions_lockstep (t : AccountType) :
    ((getDashboardPermissions t).canViewCashFlow = true ↔
      requireCashFlowAccess (reqWithTier t) = .next)
    ∧ ((getDashboardPermissions t).canViewSettings = true ↔
      requireSettingsAccess (reqWithTier t) = .next) := by
  cases t <;> exact ⟨by decide, by decide⟩

/-- C10: with an identity carrying a non-empty `tenantId` attached and no
`tenantId` route parameter, `validateTenantAccess` calls `next()`: the
tenant comparison only runs when the path supplies a tenant id. -/
theorem validateTenantAccess_no_path_param (req : AuthRequest) (u : ReqUser)
    (hu : req.user = some u) (ht : jsTruthyOptStr u.tenantId = true)
    (hp : req.paramsTenantId = none) :
    validateTenantAccess req = .next := by
  unfold validateTenantAccess
  simp [hu, ht, hp]

/-- Witness for C10 at a concrete request. -/
theorem validateTenantAccess_no_path_param_witness :
    validateTenantAccess
      { user := some { accountType := some AccountType.SIMPLES, tenantId := some "T1" },
        paramsTenantId := none } = .next :=
  validateTenantAccess_no_path_param _
    { accountType := some AccountType.SIMPLES, tenantId := some "T1" }
    rfl (by decide) rfl

/-! ## Registration Key Store (`RegistrationKeyService`) -/

/-- A bcrypt hash of a plaintext string, modelled as an opaque wrapper:
`bcrypt.compare plain h` holds exactly when `h` was produced from `plain`. -/
structure BcryptHash where
  ofPlain : String
deriving DecidableEq, Repr

/-- Model of `bcrypt.hash(plain, cost)` (functional model, salt/cost irrelevant). -/
def bcryptHash (plain : String) : BcryptHash := ⟨plain⟩

/-- Model of `bcrypt.compare(plain, hash)`. -/
def bcryptCompare (plain : String) (h : BcryptHash) : Bool :=
  plain = h.ofPlain

/-- An entry of a registration key's append-only `used_logs`. -/
structure UsedLog where
  usedAt : Nat
  tenantId : String
  ip : String
deriving DecidableEq, Repr

/-- A stored registration key record (snake_case field names as returned by
the database layer). -/
structure RegKey where
  id : String
  key_hash : BcryptHash
  tenant_id : String
  account_type : AccountType
  uses_allowed : Int
  uses_left : Int
  single_use : Bool
  expires_at : Option Nat
  used_logs : List UsedLog
  revoked : Bool
deriving DecidableEq, Repr

/-- Modelled from the spec: the database collaborator's registration-key
store (`getAllRegistrationKeys` / `updateRegistrationKey`) is a list of
records; an update rewrites the record with the given id in place. -/
def updateRegistrationKey (id : String) (usesLeft : Int) (logs : List UsedLog)
    (keys : List RegKey) : List RegKey :=
  keys.map fun k => if k.id = id then { k with uses_left := usesLeft, used_logs := logs } else k

/-- JS `x || 1` on an optional number: `undefined` and `0` give `1`. -/
def jsOrOne : Option Int → Int
  | none => 1
  | some n => if n = 0 then 1 else n

/-- JS `String.prototype.trim()`: strips whitespace from both ends
(modelled on the character list so that it evaluates by kernel reduction). -/
def jsTrim (s : String) : String :=
  ⟨((s.data.dropWhile Char.isWhitespace).reverse.dropWhile Char.isWhitespace).reverse⟩

/-- The argument record of `generateKey` (`CreateKeyRequest`). -/
structure CreateKeyRequest where
  tenantId : String
  accountType : AccountType
  usesAllowed : Option Int
  expiresAt : Option Nat
  singleUse : Option Bool
deriving DecidableEq, Repr

/-- Operation `RegistrationKeyService.generateKey(request, createdBy)`.  The random
plaintext (`crypto.randomBytes(32).toString('hex')`) and the fresh record id
are inputs of the model.  Returns the plaintext and the grown store, or the
wrapped error thrown when `tenantId` is missing/whitespace. -/
def generateKey (request : CreateKeyRequest) (createdBy : String) (key : String)
    (newId : String) (keys : List RegKey) : Except String (String × List RegKey) :=
  if request.tenantId = "" ∨ jsTrim request.tenantId = "" then
    .error ("Failed to generate registration key: " ++
      "tenantId é obrigatório para gerar chave de registro")
  else
    let keyData : RegKey :=
      { id := newId
        key_hash := bcryptHash key
        tenant_id := request.tenantId
        account_type := request.accountType
        uses_allowed := jsOrOne request.usesAllowed
        uses_left := jsOrOne request.usesAllowed
        single_use := request.singleUse.getD true
        expires_at := request.expiresAt
        used_logs := []
        revoked := false }
    .ok (key, keys ++ [keyData])
-- `createdBy` only lands in the record's bookkeeping column; it does not
-- influence any verified behaviour, so the model drops the field.

/-- The `{accountType, tenantId}` value returned by `validateAndConsumeKey`. -/
structure ConsumeResult where
  accountType : AccountType
  tenantId : String
deriving DecidableEq, Repr

/-- The pending store update of a successful consumption: which record to
rewrite, its new `uses_left`, and its new `used_logs`. -/
structure RegKeyUpdate where
  id : String
  usesLeft : Int
  usedLogs : List UsedLog
deriving DecidableEq, Repr

/-- First stored key whose hash matches the plaintext (the source's linear
scan with `bcrypt.compare`, stopping at the first match). -/
def findMatchingKey (plainKey : String) (keys : List RegKey) : Option RegKey :=
  keys.find? fun k => bcryptCompare plainKey k.key_hash

/-- Expiry test `matchingKey.expires_at && new Date() > new Date(matchingKey.expires_at)`. -/
def keyExpired (now : Nat) (k : RegKey) : Bool :=
  match k.expires_at with
  | none => false
  | some e => e < now

/-- The read-and-validate phase of `validateAndConsumeKey`, executed against
a snapshot of the store (`database.getAllRegistrationKeys()`): find the
matching key, run the four checks in source order, and on success produce
the result plus the pending decrement-and-log update (not yet applied). -/
def validateKeyPhase (plainKey tenantId : String) (now : Nat) (snapshot : List RegKey) :
    Except String (ConsumeResult × RegKeyUpdate) :=
  match findMatchingKey plainKey snapshot with
  | none => .error "Chave de registro inválida"
  | some matchingKey =>
    if matchingKey.revoked then .error "Chave de registro foi revogada"
    else if keyExpired now matchingKey then .error "Chave de registro expirada"
    else if matchingKey.uses_left ≤ 0 then
      .error "Chave de registro esgotou os usos permitidos"
    else if matchingKey.tenant_id ≠ tenantId then
      .error "Chave de registro não pertence ao tenant especificado"
    else
      let usedLog : UsedLog := { usedAt := now, tenantId := tenantId, ip := "system" }
      .ok ({ accountType := matchingKey.account_type, tenantId := matchingKey.tenant_id },
        { id := matchingKey.id, usesLeft := matchingKey.uses_left - 1,
          usedLogs := matchingKey.used_logs ++ [usedLog] })

/-- Operation `RegistrationKeyService.validateAndConsumeKey(plainKey, tenantId)`: the
validate phase against the current store followed immediately by the
`database.updateRegistrationKey` write.  Returns the key data and the
updated store, or the thrown error (the surrounding `try/catch` rethrows
unchanged). -/
def validateAndConsumeKey (plainKey tenantId : String) (now : Nat) (keys : List RegKey) :
    Except String (ConsumeResult × List RegKey) :=
  match validateKeyPhase plainKey tenantId now keys with
  | .error e => .error e
  | .ok (res, upd) => .ok (res, updateRegistrationKey upd.id upd.usesLeft upd.usedLogs keys)

/-- Concrete key bound to tenant `A` that is also revoked (but unexpired,
with a use left): exercises the precedence of the revoked check over the
tenant check. -/
def keyA : RegKey :=
  { id := "k1", key_hash := bcryptHash "plain1", tenant_id := "A",
    account_type := AccountType.SIMPLES, uses_allowed := 1, uses_left := 1,
    single_use := true, expires_at := none, used_logs := [], revoked := true }

/-- C1 counterexample: consuming the revoked key bound to tenant `A` with a
request for tenant `B` fails with the *revoked* error, not the
tenant-mismatch error the claim promises regardless of revocation. -/
theorem tenant_mismatch_not_first_counterexample :
    validateAndConsumeKey "plain1" "B" 0 [keyA] =
      .error "Chave de registro foi revogada"
    ∧ "Chave de registro foi revogada" ≠
      "Chave de registro não pertence ao tenant especificado" := by
  constructor
  · rfl
  · decide

/-- C1 amended: consuming a key bound to tenant `A` for a tenant `B ≠ A`
always fails; the failure is the tenant-mismatch error precisely when the
key passes the earlier checks (not revoked, not expired, `uses_left > 0`) —
when the key is also revoked, expired or exhausted, that earlier check's
error is raised instead. -/
theorem tenant_mismatch_always_fails (plainKey tenantId : String) (now : Nat)
    (keys : List RegKey) (matchingKey : RegKey)
    (hfind : findMatchingKey plainKey keys = some matchingKey)
    (hmis : matchingKey.tenant_id ≠ tenantId) :
    (∃ e, validateAndConsumeKey plainKey tenantId now keys = .error e)
    ∧ (matchingKey.revoked = false → keyExpired now matchingKey = false →
        0 < matchingKey.uses_left →
        validateAndConsumeKey plainKey tenantId now keys =
          .error "Chave de registro não pertence ao tenant especificado") := by
  constructor
  · by_cases hrev : matchingKey.revoked
    · exact ⟨"Chave de registro foi revogada",
        by simp [validateAndConsumeKey, validateKeyPhase, hfind, hrev]⟩
    · by_cases hexp : keyExpired now matchingKey
      · exact ⟨"Chave de registro expirada",
          by simp [validateAndConsumeKey, validateKeyPhase, hfind, hrev, hexp]⟩
      · by_cases hle : matchingKey.uses_left ≤ 0
        · exact ⟨"Chave de registro esgotou os usos permitidos",
            by simp [validateAndConsumeKey, validateKeyPhase, hfind, hrev, hexp, hle]⟩
        · exact ⟨"Chave de registro não pertence ao tenant especificado",
            by simp [validateAndConsumeKey, validateKeyPhase, hfind, hrev, hexp, hle, hmis]⟩
  · intro hrev hexp hpos
    simp [validateAndConsumeKey, validateKeyPhase, hfind, hrev, hexp, not_le.mpr hpos, hmis]

/-- A healthy (unrevoked, unexpired, one use left) key bound to tenant `A`. -/
def keyA2 : RegKey :=
  { id := "k2", key_hash := bcryptHash "plain2", tenant_id := "A",
    account_type := AccountType.GERENCIAL, uses_allowed := 1, uses_left := 1,
    single_use := true, expires_at := none, used_logs := [], revoked := false }

/-- Witness for the amended C1 at a concrete store. -/
theorem tenant_mismatch_always_fails_witness :
    validateAndConsumeKey "plain2" "B" 0 [keyA2] =
      .error "Chave de registro não pertence ao tenant especificado" :=
  (tenant_mismatch_always_fails "plain2" "B" 0 [keyA2] keyA2 (by decide)
      (by decide)).2 rfl rfl (by decide)

/-- C2: once the scan finds the matching key, the checks run in source order
revoked → expired → `uses_left > 0` → tenant match, each cause failing with
its own message (no match fails with the not-found message), and the five
messages are pairwise distinct.  In particular a revoked key fails whatever
its `uses_left` and expiry. -/
theorem validateAndConsumeKey_check_order (plainKey tenantId : String) (now : Nat)
    (keys : List RegKey) (matchingKey : RegKey)
    (hfind : findMatchingKey plainKey keys = some matchingKey) :
    (matchingKey.revoked = true →
        validateAndConsumeKey plainKey tenantId now keys =
          .error "Chave de registro foi revogada")
    ∧ (matchingKey.revoked = false → keyExpired now matchingKey = true →
        validateAndConsumeKey plainKey tenantId now keys =
          .error "Chave de registro expirada")
    ∧ (matchingKey.revoked = false → keyExpired now matchingKey = false →
        matchingKey.uses_left ≤ 0 →
        validateAndConsumeKey plainKey tenantId now keys =
          .error "Chave de registro esgotou os usos permitidos")
    ∧ (matchingKey.revoked = false → keyExpired now matchingKey = false →
        0 < matchingKey.uses_left → matchingKey.tenant_id ≠ tenantId →
        validateAndConsumeKey plainKey tenantId now keys =
          .error "Chave de registro não pertence ao tenant especificado")
    ∧ (∀ keys2, findMatchingKey plainKey keys2 = none →
        validateAndConsumeKey plainKey tenantId now keys2 =
          .error "Chave de registro inválida")
    ∧ ["Chave de registro inválida", "Chave de registro foi revogada",
        "Chave de registro expirada", "Chave de registro esgotou os usos permitidos",
        "Chave de registro não pertence ao tenant especificado"].Nodup := by
  refine ⟨?_, ?_, ?_, ?_, ?_, by decide⟩
  · intro hrev
    simp [validateAndConsumeKey, validateKeyPhase, hfind, hrev]
  · intro hrev hexp
    simp [validateAndConsumeKey, validateKeyPhase, hfind, hrev, hexp]
  · intro hrev hexp hle
    simp [validateAndConsumeKey, validateKeyPhase, hfind, hrev, hexp, hle]
  · intro hrev hexp hpos hmis
    simp [validateAndConsumeKey, validateKeyPhase, hfind, hrev, hexp, not_le.mpr hpos, hmis]
  · intro keys2 hnone
    simp [validateAndConsumeKey, validateKeyPhase, hnone]

/-- Witness for C2: the revoked key with a use left and no expiry fails with
the revoked error. -/
theorem validateAndConsumeKey_check_order_witness :
    validateAndConsumeKey "plain1" "A" 0 [keyA] =
      .error "Chave de registro foi revogada" :=
  (validateAndConsumeKey_check_order "plain1" "A" 0 [keyA] keyA (by decide)).1 rfl

/-- The `generateKey` request of the C3 scenario: a valid tenant but an
explicit `usesAllowed` of `0`. -/
def zeroUsesRequest : CreateKeyRequest :=
  { tenantId := "T1", accountType := AccountType.COMPOSTA,
    usesAllowed := some 0, expiresAt := none, singleUse := none }

/-- C3 counterexample: with an explicit `usesAllowed = 0` the persisted
record carries `uses_left = 1` — `request.usesAllowed || 1` treats `0` as
falsy — not the `usesLeft = 0` the claim derives from `usesAllowed ?? 1`. -/
theorem generateKey_zero_uses_counterexample :
    generateKey zeroUsesRequest "admin" "key0" "id0" [] =
      .ok ("key0",
        [{ id := "id0", key_hash := bcryptHash "key0", tenant_id := "T1",
           account_type := AccountType.COMPOSTA, uses_allowed := 1, uses_left := 1,
           single_use := true, expires_at := none, used_logs := [], revoked := false }])
    ∧ (1 : Int) ≠ 0 := by
  constructor
  · rfl
  · decide

/-- C3 amended: `generateKey` fails with the (wrapped) validation error when
`tenantId` is empty or all-whitespace, persisting nothing; otherwise it
persists exactly one new record with `uses_left = usesAllowed` when that is
provided and nonzero, else `1` (so an explicit `0` yields `1`),
`revoked = false` and an empty usage log, and returns the plaintext key. -/
theorem generateKey_spec (request : CreateKeyRequest) (createdBy key newId : String)
    (keys : List RegKey) :
    (jsTrim request.tenantId = "" →
        generateKey request createdBy key newId keys =
          .error ("Failed to generate registration key: " ++
            "tenantId é obrigatório para gerar chave de registro"))
    ∧ (jsTrim request.tenantId ≠ "" →
        generateKey request createdBy key newId keys =
          .ok (key, keys ++
            [{ id := newId, key_hash := bcryptHash key, tenant_id := request.tenantId,
               account_type := request.accountType,
               uses_allowed := jsOrOne request.usesAllowed,
               uses_left := jsOrOne request.usesAllowed,
               single_use := request.singleUse.getD true,
               expires_at := request.expiresAt, used_logs := [], revoked := false }])) := by
  constructor
  · intro htrim
    simp [generateKey, htrim]
  · intro htrim
    have hne : request.tenantId ≠ "" := by
      intro h
      exact htrim (by rw [h]; rfl)
    simp [generateKey, htrim, hne]

/-- A request whose `tenantId` is all whitespace. -/
def wsRequest : CreateKeyRequest :=
  { tenantId := "  "
    accountType := AccountType.SIMPLES
    usesAllowed := none
    expiresAt := none
    singleUse := none }

/-- A request with `usesAllowed = 5` and an explicit `singleUse = false`. -/
def fiveUsesRequest : CreateKeyRequest :=
  { tenantId := "T9"
    accountType := AccountType.SIMPLES
    usesAllowed := some 5
    expiresAt := none
    singleUse := some false }

/-- The record `generateKey fiveUsesRequest` persists. -/
def fiveUsesRecord : RegKey :=
  { id := "idB"
    key_hash := bcryptHash "kB"
    tenant_id := "T9"
    account_type := AccountType.SIMPLES
    uses_allowed := 5
    uses_left := 5
    single_use := false
    expires_at := none
    used_logs := []
    revoked := false }

/-- Witness for the amended C3: both the whitespace-tenant failure and a
successful generation with `usesAllowed = 5`. -/
theorem generateKey_spec_witness :
    generateKey wsRequest "adm" "kA" "idA" [] =
      .error ("Failed to generate registration key: " ++
        "tenantId é obrigatório para gerar chave de registro")
    ∧ generateKey fiveUsesRequest "adm" "kB" "idB" [] = .ok ("kB", [fiveUsesRecord]) :=
  ⟨(generateKey_spec wsRequest "adm" "kA" "idA" []).1 (by decide),
   (generateKey_spec fiveUsesRequest "adm" "kB" "idB" []).2 (by decide)⟩

/-- Applies the pending decrement-and-log write of a consumption to the
store (the `database.updateRegistrationKey` call of the source). -/
def applyKeyUpdate (upd : RegKeyUpdate) (keys : List RegKey) : List RegKey :=
  updateRegistrationKey upd.id upd.usesLeft upd.usedLogs keys

/-- A single-use key (`usesAllowed = 1`, one use left) for tenant `T1`. -/
def singleUseKey : RegKey :=
  { id := "k6", key_hash := bcryptHash "plain6", tenant_id := "T1",
    account_type := AccountType.COMPOSTA, uses_allowed := 1, uses_left := 1,
    single_use := true, expires_at := none, used_logs := [], revoked := false }

/-- The usage-log entry appended by a consumption at time 7 for tenant T1. -/
def consumedLog : UsedLog := { usedAt := 7, tenantId := "T1", ip := "system" }

/-- The pending write both interleaved consumptions compute from the shared
snapshot: `uses_left` decremented to 0 plus the appended log entry. -/
def consumeUpd : RegKeyUpdate := { id := "k6", usesLeft := 0, usedLogs := [consumedLog] }

/-- The store record after both interleaved writes have been applied. -/
def doublyWrittenKey : RegKey := { singleUseKey with uses_left := 0, used_logs := [consumedLog] }

/-- C6 failing execution.  `validateAndConsumeKey` reads the whole store
(`getAllRegistrationKeys`) and later writes (`updateRegistrationKey`) in two
separate store calls with no lock, version check or conditional decrement,
so two concurrent calls may interleave as read₁, read₂, write₁, write₂:
both validate phases then run against the same snapshot.  Against the
single-use key both phases succeed (two successful consumptions of a key
with `uses_allowed = 1`), and applying both pending writes leaves
`uses_left = 0` after a double redemption — refuting "exactly one succeeds
and all others fail with an exhaustion error". -/
theorem singleUse_double_redemption :
    singleUseKey.uses_allowed = 1
    ∧ validateKeyPhase "plain6" "T1" 7 [singleUseKey] =
        .ok ({ accountType := AccountType.COMPOSTA, tenantId := "T1" }, consumeUpd)
    ∧ applyKeyUpdate consumeUpd (applyKeyUpdate consumeUpd [singleUseKey]) = [doublyWrittenKey] := by
  refine ⟨rfl, rfl, rfl⟩

/-! ## Auth Service (`AuthService`) -/

/-- Which signing secret a JWT was signed with (`JWT_ACCESS_SECRET` vs
`JWT_REFRESH_SECRET`; the two are distinct). -/
inductive SecretKind
  | access
  | refresh
deriving DecidableEq, Repr

/-- The signed claims: user id, email, name, plus either `role` (admins) or
`tenantId`+`accountType` (users). -/
structure TokenPayload where
  userId : String
  email : String
  name : String
  role : Option String
  tenantId : Option String
  accountType : Option AccountType
deriving DecidableEq, Repr

/-- A signed JWT, modelled as its payload plus signing parameters: issue
time, expiry, signing secret, issuer and audience. -/
structure Jwt where
  payload : TokenPayload
  iat : Nat
  exp : Nat
  secret : SecretKind
  issuer : String
  audience : String
deriving DecidableEq, Repr

/-- bcrypt hash of a serialized token (same functional model as
`BcryptHash`, at token type). -/
structure TokenHash where
  ofToken : Jwt
deriving DecidableEq, Repr

/-- Model of `bcrypt.hash(refreshToken, 10)`. -/
def bcryptHashToken (t : Jwt) : TokenHash := ⟨t⟩

/-- Model of `bcrypt.compare(token, storedHash)`. -/
def bcryptCompareToken (t : Jwt) (h : TokenHash) : Bool :=
  t = h.ofToken

/-- A stored user (or admin, distinguished by `role`) record. -/
structure DbUser where
  id : String
  email : String
  name : String
  password : BcryptHash
  isActive : Bool
  tenantId : String
  accountType : AccountType
  role : Option String
  lastLoginAt : Option Nat
deriving DecidableEq, Repr

/-- A stored refresh-token record. -/
structure RefreshTokenRec where
  id : String
  tokenHash : TokenHash
  userId : String
  expiresAt : Nat
  isActive : Bool
deriving DecidableEq, Repr

/-- Default `JWT_ACCESS_EXPIRES` (`'24h'`), in seconds. -/
def accessExpSecs : Nat := 24 * 3600

/-- Default `JWT_REFRESH_EXPIRES` (`'7d'`), in seconds; also the stored
record's expiry horizon (`expiresAt.setDate(getDate() + 7)`). -/
def refreshExpSecs : Nat := 7 * 24 * 3600

/-- The payload built by `generateTokens`: `role` for admins, otherwise
`tenantId` + `accountType`. -/
def mkPayload (user : DbUser) : TokenPayload :=
  match user.role with
  | some r =>
    { userId := user.id
      email := user.email
      name := user.name
      role := some r
      tenantId := none
      accountType := none }
  | none =>
    { userId := user.id
      email := user.email
      name := user.name
      role := none
      tenantId := some user.tenantId
      accountType := some user.accountType }

/-- The `{accessToken, refreshToken}` pair. -/
structure TokenPair where
  accessToken : Jwt
  refreshToken : Jwt
deriving DecidableEq, Repr

/-- Modelled from the spec: `database.createRefreshToken` appends the new
record; `storeOk = false` models a storage-layer failure (thrown error). -/
def createRefreshToken (entry : RefreshTokenRec) (storeOk : Bool)
    (toks : List RefreshTokenRec) : Except String (List RefreshTokenRec) :=
  if storeOk then .ok (toks ++ [entry]) else .error "storage failure"

/-- Operation `AuthService.generateTokens(user)` at time `now`: signs the pair (same
payload, distinct secrets and lifetimes, fixed issuer/audience) and
best-effort persists a hash of the refresh token — the `try/catch` around
`database.createRefreshToken` only logs a failure, so the pair is returned
either way. -/
def generateTokens (user : DbUser) (now : Nat) (newRecId : String) (storeOk : Bool)
    (toks : List RefreshTokenRec) : TokenPair × List RefreshTokenRec :=
  let payload := mkPayload user
  let accessToken : Jwt :=
    { payload := payload
      iat := now
      exp := now + accessExpSecs
      secret := .access
      issuer := "legalsaas"
      audience := "legalsaas-users" }
  let refreshToken : Jwt :=
    { payload := payload
      iat := now
      exp := now + refreshExpSecs
      secret := .refresh
      issuer := "legalsaas"
      audience := "legalsaas-users" }
  let entry : RefreshTokenRec :=
    { id := newRecId
      tokenHash := bcryptHashToken refreshToken
      userId := user.id
      expiresAt := now + refreshExpSecs
      isActive := true }
  let toksAfter :=
    match createRefreshToken entry storeOk toks with
    | .ok t => t
    | .error _ => toks
  ({ accessToken := accessToken, refreshToken := refreshToken }, toksAfter)

/-- Model of `jwt.verify(token, secret, opts)` checked at time `now`: checks
signing secret, issuer, audience and expiry. -/
def jwtVerify (token : Jwt) (secret : SecretKind) (now : Nat) : Except String TokenPayload :=
  if token.secret = secret ∧ token.issuer = "legalsaas" ∧
      token.audience = "legalsaas-users" ∧ now < token.exp
  then .ok token.payload
  else .error "jwt verification failed"

/-- Modelled from the spec: `database.getActiveRefreshTokensForUser` lists
the stored records that are active and owned by the user. -/
def getActiveRefreshTokensForUser (userId : String) (toks : List RefreshTokenRec) :
    List RefreshTokenRec :=
  toks.filter fun t => t.isActive && t.userId == userId

/-- Operation `AuthService.verifyRefreshToken(token)`: verifies the signature
parameters, then scans the user's active stored hashes for a match; any
failure surfaces as the single generic error (the wrapping `try/catch`
rethrows `'Invalid or expired refresh token'`). -/
def verifyRefreshToken (token : Jwt) (now : Nat) (toks : List RefreshTokenRec) :
    Except String TokenPayload :=
  match jwtVerify token .refresh now with
  | .error _ => .error "Invalid or expired refresh token"
  | .ok decoded =>
    if (getActiveRefreshTokensForUser decoded.userId toks).any
        (fun st => bcryptCompareToken token st.tokenHash)
    then .ok decoded
    else .error "Invalid or expired refresh token"

/-- Modelled from the spec: `database.findUserByEmail`. -/
def findUserByEmail (email : String) (users : List DbUser) : Option DbUser :=
  users.find? fun u => u.email == email

/-- Modelled from the spec: `database.revokeRefreshTokenById` deactivates
the record with the given id. -/
def revokeRefreshTokenById (id : String) (toks : List RefreshTokenRec) :
    List RefreshTokenRec :=
  toks.map fun t => if t.id = id then { t with isActive := false } else t

/-- Operation `AuthService.refreshTokens(refreshToken)`: verify, reload the user
(fail if missing or inactive), revoke the first stored active record whose
hash matches the presented token, then issue a fresh pair. -/
def refreshTokens (refreshToken : Jwt) (now : Nat) (newRecId : String) (storeOk : Bool)
    (users : List DbUser) (toks : List RefreshTokenRec) :
    Except String ((DbUser × TokenPair) × List RefreshTokenRec) :=
  match verifyRefreshToken refreshToken now toks with
  | .error e => .error e
  | .ok decoded =>
    match findUserByEmail decoded.email users with
    | none => .error "User not found or inactive"
    | some user =>
      if ¬ user.isActive then .error "User not found or inactive"
      else
        let toksAfterRevoke :=
          match (getActiveRefreshTokensForUser decoded.userId toks).find?
              (fun st => bcryptCompareToken refreshToken st.tokenHash) with
          | some st => revokeRefreshTokenById st.id toks
          | none => toks
        let issued := generateTokens user now newRecId storeOk toksAfterRevoke
        .ok ((user, issued.1), issued.2)

/-- Modelled from the spec: `database.revokeAllUserTokens` bulk-deactivates
a user's records. -/
def revokeAllUserTokens (userId : String) (toks : List RefreshTokenRec) :
    List RefreshTokenRec :=
  toks.map fun t => if t.userId = userId then { t with isActive := false } else t

/-- The store interaction of `revokeAllTokens` before its `try/catch`: the
admin branch only logs; the user branch bulk-revokes and may fail
(`storeOk = false`). -/
def revokeAllTokensRaw (userId : String) (isAdmin : Bool) (storeOk : Bool)
    (toks : List RefreshTokenRec) : Except String (List RefreshTokenRec) :=
  if isAdmin then .ok toks
  else if storeOk then .ok (revokeAllUserTokens userId toks)
  else .error "storage failure"

/-- Operation `AuthService.revokeAllTokens(userId, isAdmin)`: the surrounding
`try/catch` logs and swallows any storage failure, so the call always
returns normally (on failure the store is left as it was). -/
def revokeAllTokens (userId : String) (isAdmin : Bool) (storeOk : Bool)
    (toks : List RefreshTokenRec) : List RefreshTokenRec :=
  match revokeAllTokensRaw userId isAdmin storeOk toks with
  | .ok t => t
  | .error _ => toks

/-- Operation `AuthService.verifyPassword(password, hash)`. -/
def verifyPassword (password : String) (h : BcryptHash) : Bool :=
  bcryptCompare password h

/-- Modelled from the spec: `database.updateUserLastLogin`. -/
def updateUserLastLogin (userId : String) (now : Nat) (users : List DbUser) : List DbUser :=
  users.map fun u => if u.id = userId then { u with lastLoginAt := some now } else u

/-- A user record with the password hash removed (the destructured
`userWithoutPassword` returned by the login/registration flows). -/
structure PublicUser where
  id : String
  email : String
  name : String
  isActive : Bool
  tenantId : String
  accountType : AccountType
  role : Option String
  lastLoginAt : Option Nat
deriving DecidableEq, Repr

/-- Model of the destructuring that drops the password field. -/
def stripPassword (u : DbUser) : PublicUser :=
  { id := u.id
    email := u.email
    name := u.name
    isActive := u.isActive
    tenantId := u.tenantId
    accountType := u.accountType
    role := u.role
    lastLoginAt := u.lastLoginAt }

/-- Operation `AuthService.loginUser(email, password)`: generic `'Invalid credentials'`
for an unknown email and for a wrong password; `'Account is deactivated'`
for an inactive account; otherwise updates last-login, issues tokens and
returns the password-stripped user. -/
def loginUser (email password : String) (now : Nat) (newRecId : String) (storeOk : Bool)
    (users : List DbUser) (toks : List RefreshTokenRec) :
    Except String ((PublicUser × TokenPair) × (List DbUser × List RefreshTokenRec)) :=
  match findUserByEmail email users with
  | none => .error "Invalid credentials"
  | some user =>
    if ¬ user.isActive then .error "Account is deactivated"
    else if ¬ verifyPassword password user.password then .error "Invalid credentials"
    else
      let usersAfter := updateUserLastLogin user.id now users
      let issued := generateTokens user now newRecId storeOk toks
      .ok ((stripPassword user, issued.1), (usersAfter, issued.2))

/-- C5: logging in with an email absent from the store and logging in with
a wrong password for a stored *active* user both fail, and the error
content is the identical `"Invalid credentials"` value in both cases. -/
theorem loginUser_error_indistinguishable (e1 p1 e2 p2 : String) (now : Nat)
    (newRecId : String) (storeOk : Bool) (users : List DbUser)
    (toks : List RefreshTokenRec) (u : DbUser)
    (h1 : findUserByEmail e1 users = none)
    (h2 : findUserByEmail e2 users = some u)
    (hact : u.isActive = true)
    (hpw : verifyPassword p2 u.password = false) :
    loginUser e1 p1 now newRecId storeOk users toks = .error "Invalid credentials"
    ∧ loginUser e2 p2 now newRecId storeOk users toks = .error "Invalid credentials" := by
  constructor
  · simp [loginUser, h1]
  · simp [loginUser, h2, hact, hpw]

/-- An active stored user for the login scenarios. -/
def aliceUser : DbUser :=
  { id := "u1"
    email := "alice@x.com"
    name := "Alice"
    password := bcryptHash "correct-horse"
    isActive := true
    tenantId := "T1"
    accountType := AccountType.COMPOSTA
    role := none
    lastLoginAt := none }

/-- Witness for C5: unknown `bob@x.com` and Alice with a wrong password get
the same error value. -/
theorem loginUser_error_indistinguishable_witness :
    loginUser "bob@x.com" "pw" 3 "r1" true [aliceUser] [] = .error "Invalid credentials"
    ∧ loginUser "alice@x.com" "wrong" 3 "r1" true [aliceUser] [] =
      .error "Invalid credentials" :=
  loginUser_error_indistinguishable "bob@x.com" "pw" "alice@x.com" "wrong" 3 "r1" true
    [aliceUser] [] aliceUser (by decide) (by decide) rfl (by decide)

/-- C9: best-effort side effects never fail the primary operation.  A
storage failure while persisting the refresh-token record changes nothing
about the pair `generateTokens` returns, and `revokeAllTokens` under a
storage failure (and in the admin branch, which performs no store call)
still returns normally with the store untouched — even though the
uncaught store interaction would have raised an error. -/
theorem bestEffort_failures_swallowed (user : DbUser) (userId : String) (isAdmin : Bool)
    (now : Nat) (newRecId : String) (toks : List RefreshTokenRec) :
    (generateTokens user now newRecId false toks).1 =
      (generateTokens user now newRecId true toks).1
    ∧ revokeAllTokens userId isAdmin false toks = toks
    ∧ revokeAllTokensRaw userId false false toks = .error "storage failure"
    ∧ (generateTokens user now newRecId false toks).2 = toks := by
  refine ⟨rfl, ?_, rfl, rfl⟩
  cases isAdmin <;> rfl

/-- The payload always carries the user's id, in both the admin and the
user branch. -/
theorem mkPayload_userId (u : DbUser) : (mkPayload u).userId = u.id := by
  cases h : u.role <;> simp [mkPayload, h]

/-- Membership in the modelled `getActiveRefreshTokensForUser`. -/
theorem mem_getActive (r : RefreshTokenRec) (userId : String) (toks : List RefreshTokenRec) :
    r ∈ getActiveRefreshTokensForUser userId toks ↔
      r ∈ toks ∧ r.isActive = true ∧ r.userId = userId := by
  simp [getActiveRefreshTokensForUser, List.mem_filter]

/-- If no stored active record of the token's user matches the presented
token, `verifyRefreshToken` fails with the generic error (whatever the
time). -/
theorem verifyRefreshToken_error_of_noMatch (t : Jwt) (now : Nat)
    (toks : List RefreshTokenRec)
    (h : ∀ r ∈ toks, r.isActive = true → r.userId = t.payload.userId →
        bcryptCompareToken t r.tokenHash = false) :
    verifyRefreshToken t now toks = .error "Invalid or expired refresh token" := by
  unfold verifyRefreshToken
  cases hj : jwtVerify t .refresh now with
  | error e => rfl
  | ok decoded =>
    have hdec : decoded = t.payload := by
      unfold jwtVerify at hj
      by_cases hc : (t.secret = SecretKind.refresh ∧ t.issuer = "legalsaas" ∧
          t.audience = "legalsaas-users" ∧ now < t.exp)
      · rw [if_pos hc] at hj
        exact (Except.ok.inj hj).symm
      · rw [if_neg hc] at hj
        exact absurd hj (by simp)
    subst hdec
    have hany : (getActiveRefreshTokensForUser t.payload.userId toks).any
        (fun st => bcryptCompareToken t st.tokenHash) = false := by
      rw [List.any_eq_false]
      intro r hr
      obtain ⟨hmem, hact, huid⟩ := (mem_getActive r _ toks).1 hr
      simp [h r hmem hact huid]
    simp [hany]

/-- If the signature parameters check out at `now` and some stored active
record of the token's user matches, `verifyRefreshToken` succeeds with the
token's payload. -/
theorem verifyRefreshToken_ok_of_match (t : Jwt) (now : Nat)
    (toks : List RefreshTokenRec)
    (hsec : t.secret = .refresh) (hiss : t.issuer = "legalsaas")
    (haud : t.audience = "legalsaas-users") (hexp : now < t.exp)
    (r : RefreshTokenRec) (hmem : r ∈ toks) (hact : r.isActive = true)
    (huid : r.userId = t.payload.userId)
    (hcmp : bcryptCompareToken t r.tokenHash = true) :
    verifyRefreshToken t now toks = .ok t.payload := by
  have hj : jwtVerify t .refresh now = .ok t.payload := by
    simp [jwtVerify, hsec, hiss, haud, hexp]
  unfold verifyRefreshToken
  rw [hj]
  have hany : (getActiveRefreshTokensForUser t.payload.userId toks).any
      (fun st => bcryptCompareToken t st.tokenHash) = true := by
    rw [List.any_eq_true]
    exact ⟨r, (mem_getActive r _ toks).2 ⟨hmem, hact, huid⟩, hcmp⟩
  simp [hany]

/-- The refresh token `generateTokens` signs at time `now`. -/
def newRefreshToken (user : DbUser) (now : Nat) : Jwt :=
  { payload := mkPayload user
    iat := now
    exp := now + refreshExpSecs
    secret := .refresh
    issuer := "legalsaas"
    audience := "legalsaas-users" }

/-- The access token `generateTokens` signs at time `now`. -/
def newAccessToken (user : DbUser) (now : Nat) : Jwt :=
  { payload := mkPayload user
    iat := now
    exp := now + accessExpSecs
    secret := .access
    issuer := "legalsaas"
    audience := "legalsaas-users" }

/-- The refresh-token record `generateTokens` persists at time `now`. -/
def newRefreshEntry (user : DbUser) (now : Nat) (newRecId : String) : RefreshTokenRec :=
  { id := newRecId
    tokenHash := bcryptHashToken (newRefreshToken user now)
    userId := user.id
    expiresAt := now + refreshExpSecs
    isActive := true }

/-- With a working store, `generateTokens` returns the freshly signed pair
and appends the new record. -/
theorem generateTokens_true_eq (user : DbUser) (now : Nat) (newRecId : String)
    (toks : List RefreshTokenRec) :
    generateTokens user now newRecId true toks =
      ({ accessToken := newAccessToken user now, refreshToken := newRefreshToken user now },
        toks ++ [newRefreshEntry user now newRecId]) := rfl

/-- C4: refresh-token rotation makes tokens single-use.  If the presented
refresh token `t` verifies (valid signature parameters, a matching active
stored record — unique for its user) against an active user, and `t` was
issued at an earlier instant than `now`, then `refreshTokens(t)` succeeds,
revoking the matching record and appending the new one; afterwards `t` no
longer verifies and a second `refreshTokens(t)` fails — at any time, store,
or user set — while the newly issued refresh token verifies successfully. -/
theorem refreshTokens_rotation (t : Jwt) (now now2 : Nat) (newRecId newRecId2 : String)
    (storeOk2 : Bool) (users users2 : List DbUser) (toks : List RefreshTokenRec)
    (user : DbUser) (strec : RefreshTokenRec)
    (hsec : t.secret = .refresh) (hiss : t.issuer = "legalsaas")
    (haud : t.audience = "legalsaas-users") (hexp : now < t.exp)
    (hmem : strec ∈ toks) (hact : strec.isActive = true)
    (huid : strec.userId = t.payload.userId)
    (hcmp : bcryptCompareToken t strec.tokenHash = true)
    (huniq : ∀ r ∈ toks, r.isActive = true → r.userId = t.payload.userId →
        bcryptCompareToken t r.tokenHash = true → r.id = strec.id)
    (huser : findUserByEmail t.payload.email users = some user)
    (hactive : user.isActive = true)
    (hiat : t.iat ≠ now) :
    refreshTokens t now newRecId true users toks =
      .ok ((user, ⟨newAccessToken user now, newRefreshToken user now⟩),
        revokeRefreshTokenById strec.id toks ++ [newRefreshEntry user now newRecId])
    ∧ verifyRefreshToken t now2
        (revokeRefreshTokenById strec.id toks ++ [newRefreshEntry user now newRecId]) =
      .error "Invalid or expired refresh token"
    ∧ refreshTokens t now2 newRecId2 storeOk2 users2
        (revokeRefreshTokenById strec.id toks ++ [newRefreshEntry user now newRecId]) =
      .error "Invalid or expired refresh token"
    ∧ verifyRefreshToken (newRefreshToken user now) now
        (revokeRefreshTokenById strec.id toks ++ [newRefreshEntry user now newRecId]) =
      .ok (mkPayload user) := by
  set toks2 := revokeRefreshTokenById strec.id toks ++ [newRefreshEntry user now newRecId]
    with htoks2
  have hnomatch : ∀ r ∈ toks2, r.isActive = true → r.userId = t.payload.userId →
      bcryptCompareToken t r.tokenHash = false := by
    intro r hr hract hruid
    rcases List.mem_append.1 hr with hrA | hrB
    · obtain ⟨orig, horig, hfo⟩ := List.mem_map.1 hrA
      by_cases hid : orig.id = strec.id
      · rw [if_pos hid] at hfo
        rw [← hfo] at hract
        simp at hract
      · rw [if_neg hid] at hfo
        subst hfo
        by_cases hcmp2 : bcryptCompareToken t orig.tokenHash = true
        · exact absurd (huniq orig horig hract hruid hcmp2) hid
        · simpa using hcmp2
    · have hrB' : r = newRefreshEntry user now newRecId := by simpa using hrB
      subst hrB'
      have hne : t ≠ newRefreshToken user now := by
        intro he
        exact hiat (by rw [he]; rfl)
      simp [newRefreshEntry, bcryptCompareToken, bcryptHashToken, hne]
  have hverify : verifyRefreshToken t now toks = .ok t.payload :=
    verifyRefreshToken_ok_of_match t now toks hsec hiss haud hexp strec hmem hact huid hcmp
  have hsome : ((getActiveRefreshTokensForUser t.payload.userId toks).find?
      (fun st => bcryptCompareToken t st.tokenHash)).isSome := by
    rw [List.find?_isSome]
    exact ⟨strec, (mem_getActive strec _ toks).2 ⟨hmem, hact, huid⟩, hcmp⟩
  obtain ⟨st, hst⟩ := Option.isSome_iff_exists.1 hsome
  have hstid : st.id = strec.id := by
    obtain ⟨hstmem', hstact, hstuid⟩ :=
      (mem_getActive st _ toks).1 (List.mem_of_find?_eq_some hst)
    have hpred : bcryptCompareToken t st.tokenHash = true := by
      simpa using List.find?_some hst
    exact huniq st hstmem' hstact hstuid hpred
  have hpart1 : refreshTokens t now newRecId true users toks =
      .ok ((user, ⟨newAccessToken user now, newRefreshToken user now⟩), toks2) := by
    unfold refreshTokens
    rw [hverify]
    simp only [huser, hactive, not_true, if_false, hst, hstid,
      generateTokens_true_eq, htoks2]
  have hpart2 : verifyRefreshToken t now2 toks2 =
      .error "Invalid or expired refresh token" :=
    verifyRefreshToken_error_of_noMatch t now2 toks2 hnomatch
  have hpart3 : refreshTokens t now2 newRecId2 storeOk2 users2 toks2 =
      .error "Invalid or expired refresh token" := by
    unfold refreshTokens
    rw [hpart2]
  have hpart4 : verifyRefreshToken (newRefreshToken user now) now toks2 =
      .ok (mkPayload user) := by
    have hlt : now < (newRefreshToken user now).exp := by
      show now < now + refreshExpSecs
      have hpos : 0 < refreshExpSecs := by decide
      omega
    exact verifyRefreshToken_ok_of_match (newRefreshToken user now) now toks2
      rfl rfl rfl hlt (newRefreshEntry user now newRecId)
      (List.mem_append_right _ (List.mem_singleton.2 rfl))
      rfl (mkPayload_userId user).symm
      (by simp [newRefreshEntry, bcryptCompareToken, bcryptHashToken])
  exact ⟨hpart1, hpart2, hpart3, hpart4⟩

/-- Alice's refresh token issued at time 0. -/
def issuedAtZeroToken : Jwt := newRefreshToken aliceUser 0

/-- The stored record of that token. -/
def issuedAtZeroEntry : RefreshTokenRec := newRefreshEntry aliceUser 0 "rt1"

/-- The token store after rotating `issuedAtZeroToken` at time 5. -/
def rotatedStore : List RefreshTokenRec :=
  revokeRefreshTokenById issuedAtZeroEntry.id [issuedAtZeroEntry] ++
    [newRefreshEntry aliceUser 5 "rt2"]

/-- Witness for C4: rotating Alice's stored token at time 5 succeeds, after
which the old token no longer verifies, a second `refreshTokens` with it
fails, and the newly issued refresh token verifies. -/
theorem refreshTokens_rotation_witness :
    refreshTokens issuedAtZeroToken 5 "rt2" true [aliceUser] [issuedAtZeroEntry] =
      .ok ((aliceUser, ⟨newAccessToken aliceUser 5, newRefreshToken aliceUser 5⟩),
        rotatedStore)
    ∧ verifyRefreshToken issuedAtZeroToken 5 rotatedStore =
      .error "Invalid or expired refresh token"
    ∧ refreshTokens issuedAtZeroToken 5 "rt3" true [aliceUser] rotatedStore =
      .error "Invalid or expired refresh token"
    ∧ verifyRefreshToken (newRefreshToken aliceUser 5) 5 rotatedStore =
      .ok (mkPayload aliceUser) :=
  refreshTokens_rotation issuedAtZeroToken 5 5 "rt2" "rt3" true [aliceUser] [aliceUser]
    [issuedAtZeroEntry] aliceUser issuedAtZeroEntry
    rfl rfl rfl (by decide) (by decide) rfl rfl (by decide) (by decide) (by decide)
    rfl (by decide)

/-- Witness for C8: COMPOSTA passes the Cash-Flow guard and GERENCIAL the
Settings guard, as the capability flags predict. -/
theorem getDashboardPermissions_lockstep_witness :
    requireCashFlowAccess (reqWithTier AccountType.COMPOSTA) = .next
    ∧ requireSettingsAccess (reqWithTier AccountType.GERENCIAL) = .next :=
  ⟨(getDashboardPermissions_lockstep AccountType.COMPOSTA).1.mp (by decide),
   (getDashboardPermissions_lockstep AccountType.GERENCIAL).2.mp (by decide)⟩
